import Mathlib

/-!
Verification of the offline-first cache and synchronization layer of the
crop-yield platform.  The durable store (`src/backend/offline_cache.py`,
class `OfflineCache`) is modelled as four lists mirroring the four SQLite
tables; the weather cache and regional fallback
(`src/backend/app.py`, `get_weather_data` / `get_regional_fallback_weather`)
are modelled over an association-list cache with an oracle for the remote
fetch and explicit jitter draws.

Conventions of the embedding:
* timestamps are `Int` (seconds); `datetime`/`time.time` values are passed
  in as explicit `now` arguments;
* a stored `data` TEXT blob is `Option String`: `some s` is a blob that
  `json.loads` decodes (to the abstract payload `s`), `none` is an
  undecodable blob (the `except json.JSONDecodeError` path);
* SQLite three-valued logic on NULL columns is made explicit: a comparison
  `expires_at < x` or `expires_at > x` on a NULL `expires_at` is not TRUE,
  so the row does not satisfy the WHERE clause;
* `ORDER BY` is modelled with `List.insertionSort` on the relation the SQL
  key defines (any sort realising that key agrees on all claims below,
  which only use the key-ordering, filtering and limiting behaviour).
-/

namespace CropYield

/-- Row of table `offline_predictions` (offline_cache.py, init_database). -/
structure PredRecord where
  id : Nat
  userId : Nat
  data : Option String
  createdAt : Int
  synced : Bool
  deriving DecidableEq

/-- Row of table `offline_weather`.  `expiresAt = none` is a NULL
`expires_at` column. -/
structure WeatherRecord where
  id : Nat
  region : String
  data : Option String
  createdAt : Int
  expiresAt : Option Int
  synced : Bool
  deriving DecidableEq

/-- Row of table `offline_user_data`. -/
structure UserRecord where
  id : Nat
  userId : Nat
  dataType : String
  data : Option String
  createdAt : Int
  synced : Bool
  deriving DecidableEq

/-- Row of table `sync_queue`. -/
structure QueueEntry where
  id : Nat
  operation : String
  endpoint : String
  data : Option String
  createdAt : Int
  priority : Int
  retryCount : Nat
  deriving DecidableEq

/-- The durable store: the four SQLite tables of `OfflineCache`. -/
structure Store where
  predictions : List PredRecord
  weather : List WeatherRecord
  userData : List UserRecord
  syncQueue : List QueueEntry
  deriving DecidableEq

/-- SQLite `col < x` on a nullable column: NULL compares to nothing. -/
def sqlLt (c : Option Int) (x : Int) : Bool :=
  match c with
  | some t => decide (t < x)
  | none => false

/-- SQLite `col > x` on a nullable column: NULL compares to nothing. -/
def sqlGt (c : Option Int) (x : Int) : Bool :=
  match c with
  | some t => decide (t > x)
  | none => false

/-- Relation for `ORDER BY created_at DESC` on predictions. -/
def predDescLE (a b : PredRecord) : Prop := b.createdAt ≤ a.createdAt

instance : DecidableRel predDescLE := fun a b => Int.decLe _ _

instance : IsTotal PredRecord predDescLE := ⟨fun a b => le_total b.createdAt a.createdAt⟩

instance : IsTrans PredRecord predDescLE :=
  ⟨fun _ _ _ h1 h2 => le_trans h2 h1⟩

/-- Relation for `ORDER BY created_at DESC` on user data. -/
def userDescLE (a b : UserRecord) : Prop := b.createdAt ≤ a.createdAt

instance : DecidableRel userDescLE := fun a b => Int.decLe _ _

instance : IsTotal UserRecord userDescLE := ⟨fun a b => le_total b.createdAt a.createdAt⟩

instance : IsTrans UserRecord userDescLE :=
  ⟨fun _ _ _ h1 h2 => le_trans h2 h1⟩

/-- Relation for `ORDER BY created_at DESC` on weather rows. -/
def wDescLE (a b : WeatherRecord) : Prop := b.createdAt ≤ a.createdAt

instance : DecidableRel wDescLE := fun a b => Int.decLe _ _

instance : IsTotal WeatherRecord wDescLE := ⟨fun a b => le_total b.createdAt a.createdAt⟩

instance : IsTrans WeatherRecord wDescLE :=
  ⟨fun _ _ _ h1 h2 => le_trans h2 h1⟩

/-- Relation for `ORDER BY priority DESC, created_at ASC` on the sync queue. -/
def queueLE (a b : QueueEntry) : Prop :=
  b.priority < a.priority ∨ (a.priority = b.priority ∧ a.createdAt ≤ b.createdAt)

instance : DecidableRel queueLE := fun a b => by
  unfold queueLE; infer_instance

instance : IsTotal QueueEntry queueLE := by
  constructor
  intro a b
  unfold queueLE
  rcases lt_trichotomy a.priority b.priority with h | h | h
  · exact Or.inr (Or.inl h)
  · rcases le_total a.createdAt b.createdAt with h2 | h2
    · exact Or.inl (Or.inr ⟨h, h2⟩)
    · exact Or.inr (Or.inr ⟨h.symm, h2⟩)
  · exact Or.inl (Or.inl h)

instance : IsTrans QueueEntry queueLE := by
  constructor
  intro a b c hab hbc
  unfold queueLE at *
  rcases hab with h1 | ⟨h1, h1c⟩ <;> rcases hbc with h2 | ⟨h2, h2c⟩
  · exact Or.inl (lt_trans h2 h1)
  · exact Or.inl (h2 ▸ h1)
  · exact Or.inl (h1 ▸ h2)
  · exact Or.inr ⟨h1.trans h2, h1c.trans h2c⟩

/-! ### Listing operations (read path of offline_cache.py) -/

/-- The rows the SQL of `get_cached_predictions` selects:
`WHERE user_id = ? AND synced = FALSE ORDER BY created_at DESC LIMIT ?`. -/
def selectedPredRows (s : Store) (uid : Nat) (limit : Nat) : List PredRecord :=
  ((s.predictions.filter (fun r => r.userId == uid && !r.synced)).insertionSort
    predDescLE).take limit

/-- The decode loop of `get_cached_predictions`: `json.loads` each row,
attach `cached_at`, and `continue` past undecodable blobs. -/
def decodePredRows (l : List PredRecord) : List (String × Int) :=
  l.filterMap (fun r =>
    match r.data with
    | some d => some (d, r.createdAt)
    | none => none)

/-- Model of `OfflineCache.get_cached_predictions` (offline_cache.py lines 134-161). -/
def get_cached_predictions (s : Store) (uid : Nat) (limit : Nat) : List (String × Int) :=
  decodePredRows (selectedPredRows s uid limit)

/-- The rows the SQL of `get_cached_user_data` selects (no LIMIT clause):
`WHERE user_id = ? AND data_type = ? AND synced = FALSE ORDER BY created_at DESC`. -/
def selectedUserRows (s : Store) (uid : Nat) (dtype : String) : List UserRecord :=
  (s.userData.filter
    (fun r => r.userId == uid && r.dataType == dtype && !r.synced)).insertionSort userDescLE

/-- Decode loop of `get_cached_user_data`. -/
def decodeUserRows (l : List UserRecord) : List (String × Int) :=
  l.filterMap (fun r =>
    match r.data with
    | some d => some (d, r.createdAt)
    | none => none)

/-- Model of `OfflineCache.get_cached_user_data` (offline_cache.py lines 194-220). -/
def get_cached_user_data (s : Store) (uid : Nat) (dtype : String) : List (String × Int) :=
  decodeUserRows (selectedUserRows s uid dtype)

/-- The weather rows matching `WHERE region = ? AND expires_at > ?`
in `get_cached_weather`; a NULL `expires_at` fails the comparison. -/
def weatherCandidates (s : Store) (region : String) (now : Int) : List WeatherRecord :=
  s.weather.filter (fun r => r.region == region && sqlGt r.expiresAt now)

/-- Model of `OfflineCache.get_cached_weather` (offline_cache.py lines 163-192):
newest matching row (`ORDER BY created_at DESC LIMIT 1`), decoded; a
decode failure of that single row returns `none`. -/
def get_cached_weather (s : Store) (region : String) (now : Int) :
    Option (String × Int × Option Int) :=
  match ((weatherCandidates s region now).insertionSort wDescLE).head? with
  | some r =>
    match r.data with
    | some d => some (d, r.createdAt, r.expiresAt)
    | none => none
  | none => none

/-- Item shape returned by `get_sync_queue` (the dict built per row). -/
structure QueueItem where
  id : Nat
  operation : String
  endpoint : String
  data : String
  priority : Int
  retryCount : Nat
  createdAt : Int
  deriving DecidableEq

/-- Decode of one queue row: `json.loads(row[3])`, skipped when undecodable. -/
def decodeItem (e : QueueEntry) : Option QueueItem :=
  match e.data with
  | some d => some ⟨e.id, e.operation, e.endpoint, d, e.priority, e.retryCount, e.createdAt⟩
  | none => none

/-- Decode loop of `get_sync_queue` (`continue` past undecodable rows). -/
def decodeQueueRows (l : List QueueEntry) : List QueueItem :=
  l.filterMap decodeItem

/-- The rows the SQL of `get_sync_queue` selects:
`WHERE retry_count < 3 ORDER BY priority DESC, created_at ASC LIMIT ?`. -/
def selectedQueueRows (s : Store) (limit : Nat) : List QueueEntry :=
  ((s.syncQueue.filter (fun e => e.retryCount < 3)).insertionSort queueLE).take limit

/-- Model of `OfflineCache.get_sync_queue` (offline_cache.py lines 241-276). -/
def get_sync_queue (s : Store) (limit : Nat) : List QueueItem :=
  decodeQueueRows (selectedQueueRows s limit)

/-! ### Mutating operations of offline_cache.py -/

/-- Row update of `UPDATE offline_predictions SET synced = TRUE WHERE id = ?`. -/
def predUpd (i : Nat) (r : PredRecord) : PredRecord :=
  if r.id = i then { r with synced := true } else r

/-- Row update of `UPDATE offline_weather SET synced = TRUE WHERE id = ?`. -/
def wUpd (i : Nat) (r : WeatherRecord) : WeatherRecord :=
  if r.id = i then { r with synced := true } else r

/-- Row update of `UPDATE offline_user_data SET synced = TRUE WHERE id = ?`. -/
def uUpd (i : Nat) (r : UserRecord) : UserRecord :=
  if r.id = i then { r with synced := true } else r

/-- Model of `OfflineCache.mark_synced` (offline_cache.py lines 278-305): dispatch
on the `table` string; the three record tables get `SET synced = TRUE
WHERE id = ?`, `sync_queue` gets `DELETE ... WHERE id = ?`, any other
string falls through the if/elif chain and only `return True` runs. -/
def mark_synced (s : Store) (table : String) (recordId : Nat) : Store × Bool :=
  if table = "predictions" then
    ({ s with predictions := s.predictions.map (predUpd recordId) }, true)
  else if table = "weather" then
    ({ s with weather := s.weather.map (wUpd recordId) }, true)
  else if table = "user_data" then
    ({ s with userData := s.userData.map (uUpd recordId) }, true)
  else if table = "sync_queue" then
    ({ s with syncQueue := s.syncQueue.filter (fun e => !(e.id == recordId)) }, true)
  else
    (s, true)

/-- Row update of `UPDATE sync_queue SET retry_count = retry_count + 1 WHERE id = ?`. -/
def qUpd (i : Nat) (e : QueueEntry) : QueueEntry :=
  if e.id = i then { e with retryCount := e.retryCount + 1 } else e

/-- Combined effect of `n` applications of `qUpd i`. -/
def qUpdN (i : Nat) (n : Nat) (e : QueueEntry) : QueueEntry :=
  if e.id = i then { e with retryCount := e.retryCount + n } else e

/-- Model of `OfflineCache.mark_sync_failed` (offline_cache.py lines 307-325):
`UPDATE sync_queue SET retry_count = retry_count + 1 WHERE id = ?`. -/
def mark_sync_failed (s : Store) (queueId : Nat) : Store × Bool :=
  ({ s with syncQueue := s.syncQueue.map (qUpd queueId) }, true)

/-- Iterates `n` consecutive `mark_sync_failed` calls on the same queue id. -/
def failN (s : Store) (queueId : Nat) : Nat → Store
  | 0 => s
  | n + 1 => (mark_sync_failed (failN s queueId n) queueId).1

/-- Model of `OfflineCache.add_to_sync_queue` (offline_cache.py lines 222-239);
the AUTOINCREMENT primary key is one past the largest id present. -/
def add_to_sync_queue (s : Store) (operation endpoint : String) (data : Option String)
    (priority : Int) (now : Int) : Store × Bool :=
  ({ s with syncQueue :=
      s.syncQueue ++
        [⟨(s.syncQueue.map (fun e => e.id)).foldr max 0 + 1,
          operation, endpoint, data, now, priority, 0⟩] },
    true)

/-- Thirty days, in seconds: `timedelta(days=30)`. -/
def thirtyDays : Int := 2592000

/-- Model of `OfflineCache.cleanup_expired_data` (offline_cache.py lines 327-354):
deletes weather rows with `expires_at < now` (a NULL `expires_at` never
compares, so the row stays), then synced predictions and synced user
data older than thirty days; returns the total number deleted. -/
def cleanup_expired_data (s : Store) (now : Int) : Store × Nat :=
  let weatherKept := s.weather.filter (fun r => !(sqlLt r.expiresAt now))
  let predsKept := s.predictions.filter (fun r => !(r.synced && decide (r.createdAt < now - thirtyDays)))
  let userKept := s.userData.filter (fun r => !(r.synced && decide (r.createdAt < now - thirtyDays)))
  (⟨predsKept, weatherKept, userKept, s.syncQueue⟩,
    (s.weather.length - weatherKept.length) + (s.predictions.length - predsKept.length) +
      (s.userData.length - userKept.length))

/-- Model of `OfflineCache.clear_all_data` (offline_cache.py lines 396-413):
deletes every row of all four tables. -/
def clear_all_data (s : Store) : Store × Bool :=
  ((⟨[], [], [], []⟩ : Store), true)

/-! ### Weather cache and regional fallback (src/backend/app.py) -/

/-- Python `str.lower()` on the ASCII region names in play, as a
character list (the normalized cache/lookup key). -/
def normChars (r : String) : List Char := r.data.map Char.toLower

/-- Does `needle` start `haystack`?  (Helper for Python `in` on strings.) -/
def leadMatch : List Char → List Char → Bool
  | [], _ => true
  | _ :: _, [] => false
  | a :: as, b :: bs => a == b && leadMatch as bs

/-- Python substring test `needle in haystack`. -/
def subMatch (needle : List Char) : List Char → Bool
  | [] => needle.isEmpty
  | b :: bs => leadMatch needle (b :: bs) || subMatch needle bs

/-- One baseline climate profile of the `regional_patterns` table. -/
structure Pattern where
  temp : ℚ
  humidity : ℤ
  rainfall : ℚ
  desc : String
  deriving DecidableEq

/-- The `regional_patterns` dict of `get_regional_fallback_weather`
(app.py lines 252-264), in insertion order. -/
def regionalPatterns : List (String × Pattern) :=
  [("punjab", ⟨31.0, 60, 180, "clear sky"⟩),
   ("haryana", ⟨32.5, 55, 160, "partly cloudy"⟩),
   ("uttar pradesh", ⟨30.0, 70, 220, "scattered clouds"⟩),
   ("bihar", ⟨29.5, 75, 280, "light rain"⟩),
   ("west bengal", ⟨28.5, 80, 320, "moderate rain"⟩),
   ("tamil nadu", ⟨34.0, 65, 120, "hot"⟩),
   ("karnataka", ⟨26.5, 70, 200, "pleasant weather"⟩),
   ("maharashtra", ⟨30.5, 60, 180, "clear sky"⟩),
   ("rajasthan", ⟨35.0, 40, 80, "hot and dry"⟩),
   ("delhi", ⟨31.5, 58, 150, "haze"⟩),
   ("gujarat", ⟨33.0, 50, 100, "sunny"⟩)]

/-- The profile used when no table key matches (app.py line 275). -/
def defaultPattern : Pattern := ⟨29.5, 65, 200, "partly cloudy"⟩

/-- The `for state, pattern ... if state in region_lower: break` loop
(app.py lines 266-271): first key, in table order, contained in the
lowercased region name. -/
def findPattern (region : String) : Option (String × Pattern) :=
  regionalPatterns.find? (fun kp => subMatch kp.1.data (normChars region))

/-- The pattern `get_regional_fallback_weather` settles on. -/
def selectPattern (region : String) : Pattern :=
  match findPattern region with
  | some kp => kp.2
  | none => defaultPattern

/-- The three random draws of app.py lines 279-281
(`random.uniform(-2.0, 2.0)`, `random.randint(-5, 5)`,
`random.uniform(-20, 20)`), passed in explicitly. -/
structure Jitter where
  tempVar : ℚ
  humVar : ℤ
  rainVar : ℚ
  deriving DecidableEq

/-- Python `round(x, 1)`: round to the nearest tenth.  (Python rounds
half-to-even on floats; every bound proved below holds for any
round-to-nearest tie rule, so half-up is used.) -/
def round1 (x : ℚ) : ℚ := ((round (10 * x) : ℤ) : ℚ) / 10

/-- The weather snapshot dict returned by app.py (fields of both the
live `'api'` shape and the `'fallback'` shape). -/
structure Snapshot where
  temperature : ℚ
  humidity : ℤ
  rainfall : ℚ
  weatherDesc : String
  source : String
  region : String
  timestamp : Int
  deriving DecidableEq

/-- Model of `get_regional_fallback_weather` (app.py lines 247-291). -/
def get_regional_fallback_weather (region : String) (j : Jitter) (now : Int) : Snapshot :=
  let p := selectPattern region
  { temperature := round1 (p.temp + j.tempVar)
    humidity := max 30 (min 90 (p.humidity + j.humVar))
    rainfall := max 0 (p.rainfall + j.rainVar)
    weatherDesc := p.desc
    source := "fallback"
    region := region
    timestamp := now }

/-- Fields the OpenWeather 200-response supplies to the live branch. -/
structure ApiRaw where
  temp : ℚ
  humidity : ℤ
  rain1h : ℚ
  desc : String
  deriving DecidableEq

/-- The live weather dict built at app.py lines 220-228. -/
def mkLiveSnapshot (raw : ApiRaw) (region : String) (now : Int) : Snapshot :=
  { temperature := round1 raw.temp
    humidity := raw.humidity
    rainfall := raw.rain1h * 24
    weatherDesc := raw.desc
    source := "api"
    region := region
    timestamp := now }

/-- The module-level `weather_cache` dict: normalized region key to
`(data, cache_time)`. -/
def WCache : Type := List (List Char × Snapshot × Int)

/-- Dict lookup `weather_cache[cache_key]`. -/
def lookupW (c : WCache) (k : List Char) : Option (Snapshot × Int) :=
  match (List.find? (fun e => e.1 == k) c) with
  | some e => some e.2
  | none => none

/-- Dict assignment `weather_cache[cache_key] = v`. -/
def insertW (c : WCache) (k : List Char) (v : Snapshot × Int) : WCache :=
  (k, v) :: List.filter (fun e => !(e.1 == k)) c

/-- Constant `WEATHER_CACHE_DURATION` (app.py line 71). -/
def weatherCacheDuration : Int := 3600

/-- The part of `get_weather_data` after the cache check (app.py lines
212-245).  `apiKeyOk` is the `OPENWEATHER_API_KEY` guard of line 214;
`fetch = some raw` is a 200 response with body `raw`, `fetch = none`
covers a non-200 status or a raised exception.  The returned `Bool`
records whether a remote call was issued.  On the fallback path the
entry is cached with time `now - WEATHER_CACHE_DURATION + 300`. -/
def fetchOrFallback (c : WCache) (key : List Char) (region : String) (now : Int)
    (apiKeyOk : Bool) (fetch : Option ApiRaw) (j : Jitter) : Snapshot × WCache × Bool :=
  if apiKeyOk then
    match fetch with
    | some raw =>
      let w := mkLiveSnapshot raw region now
      (w, insertW c key (w, now), true)
    | none =>
      let fb := get_regional_fallback_weather region j now
      (fb, insertW c key (fb, now - weatherCacheDuration + 300), true)
  else
    let fb := get_regional_fallback_weather region j now
    (fb, insertW c key (fb, now - weatherCacheDuration + 300), false)

/-- Model of `get_weather_data` (app.py lines 198-245): serve a cached entry
younger than `WEATHER_CACHE_DURATION`, otherwise fetch or fall back. -/
def get_weather_data (c : WCache) (region : String) (now : Int)
    (apiKeyOk : Bool) (fetch : Option ApiRaw) (j : Jitter) : Snapshot × WCache × Bool :=
  match lookupW c (normChars region) with
  | some (snap, t) =>
    if now - t < weatherCacheDuration then (snap, c, false)
    else fetchOrFallback c (normChars region) region now apiKeyOk fetch j
  | none => fetchOrFallback c (normChars region) region now apiKeyOk fetch j

/-- The no-op predicate of claim C4: the record targeted by
`mark_synced` is already synced, or absent; for `sync_queue` (where
marking means deletion) the entry is absent; unknown table strings
touch nothing at all. -/
def syncedOrAbsent (s : Store) (table : String) (i : Nat) : Prop :=
  if table = "predictions" then ∀ r ∈ s.predictions, r.id = i → r.synced = true
  else if table = "weather" then ∀ r ∈ s.weather, r.id = i → r.synced = true
  else if table = "user_data" then ∀ r ∈ s.userData, r.id = i → r.synced = true
  else if table = "sync_queue" then ∀ e ∈ s.syncQueue, e.id ≠ i
  else True

instance (s : Store) (table : String) (i : Nat) : Decidable (syncedOrAbsent s table i) := by
  unfold syncedOrAbsent
  split
  · exact List.decidableBAll _ _
  · split
    · exact List.decidableBAll _ _
    · split
      · exact List.decidableBAll _ _
      · split
        · exact List.decidableBAll _ _
        · exact instDecidableTrue

/-- The ordering the spec commits `peekPending` to, on returned items. -/
def itemOrd (a b : QueueItem) : Prop :=
  b.priority < a.priority ∨ (a.priority = b.priority ∧ a.createdAt ≤ b.createdAt)

/-! ### Concrete fixtures used by witnesses and counterexamples -/

/-- Batch fixtures with one undecodable payload in each table. -/
def g1P : PredRecord := ⟨1, 1, some "a", 10, false⟩

def badP : PredRecord := ⟨2, 1, none, 5, false⟩

def g2P : PredRecord := ⟨3, 1, some "b", 1, false⟩

def g1U : UserRecord := ⟨1, 1, "profile", some "u1", 10, false⟩

def badU : UserRecord := ⟨2, 1, "profile", none, 5, false⟩

def g2U : UserRecord := ⟨3, 1, "profile", some "u2", 1, false⟩

def g1Q : QueueEntry := ⟨1, "create", "/api", some "q1", 10, 1, 0⟩

def badQ : QueueEntry := ⟨2, "create", "/api", none, 20, 1, 0⟩

def g2Q : QueueEntry := ⟨3, "create", "/api", some "q2", 30, 1, 0⟩

def mixedStore : Store := ⟨[g1P, badP, g2P], [], [g1U, badU, g2U], [g1Q, badQ, g2Q]⟩

/-- The spec scenario: three queue entries with priorities [1, 2, 1],
oldest first. -/
def scenE1 : QueueEntry := ⟨1, "create-prediction", "/api/predictions", some "p1", 10, 1, 0⟩

def scenE2 : QueueEntry := ⟨2, "create-prediction", "/api/predictions", some "p2", 20, 2, 0⟩

def scenE3 : QueueEntry := ⟨3, "create-prediction", "/api/predictions", some "p3", 30, 1, 0⟩

def scenStore : Store := ⟨[], [], [], [scenE1, scenE2, scenE3]⟩

/-- A one-entry queue store used by the retry-bound witness. -/
def oneQStore : Store := ⟨[], [], [], [⟨7, "op", "/ep", some "q", 50, 2, 0⟩]⟩

/-- A queue store whose single entry has exhausted its retries. -/
def exhaustedStore : Store := ⟨[], [], [], [⟨7, "op", "/ep", some "q", 50, 2, 3⟩]⟩

/-- A sample 200-response body for the live weather branch. -/
def exRaw : ApiRaw := ⟨25, 60, 1, "clear"⟩

/-- The live snapshot the code builds from `exRaw` at time 0. -/
def exSnap : Snapshot := mkLiveSnapshot exRaw "x" 0

/-- Zero jitter draws (inside every `random.uniform`/`randint` range). -/
def jEx : Jitter := ⟨0, 0, 0⟩

/-- A weather cache holding one entry for region "x" cached at time 0. -/
def exCacheFresh : WCache := [(normChars "x", exSnap, 0)]

/-! ### Helper lemmas -/

theorem map_self_of_fix {α : Type} (f : α → α) (l : List α) (h : ∀ a ∈ l, f a = a) :
    l.map f = l := by
  induction l with
  | nil => rfl
  | cons a t ih =>
    simp only [List.map_cons]
    rw [h a (List.mem_cons_self a t), ih (fun b hb => h b (List.mem_cons_of_mem a hb))]

theorem map_idem_of_fix {α : Type} (f : α → α) (l : List α) (h : ∀ a, f (f a) = f a) :
    (l.map f).map f = l.map f := by
  rw [List.map_map]
  exact List.map_congr_left (fun a _ => h a)

theorem filter_idem {α : Type} (p : α → Bool) (l : List α) :
    (l.filter p).filter p = l.filter p := by
  apply List.filter_eq_self.mpr
  intro a ha
  exact (List.mem_filter.mp ha).2

theorem predUpd_idem (i : Nat) (r : PredRecord) : predUpd i (predUpd i r) = predUpd i r := by
  by_cases h : r.id = i <;> simp [predUpd, h]

theorem wUpd_idem (i : Nat) (r : WeatherRecord) : wUpd i (wUpd i r) = wUpd i r := by
  by_cases h : r.id = i <;> simp [wUpd, h]

theorem uUpd_idem (i : Nat) (r : UserRecord) : uUpd i (uUpd i r) = uUpd i r := by
  by_cases h : r.id = i <;> simp [uUpd, h]

theorem predUpd_fix (i : Nat) (r : PredRecord) (h : r.id = i → r.synced = true) :
    predUpd i r = r := by
  by_cases hid : r.id = i
  · cases r
    simp only [predUpd, if_pos hid]
    simp_all
  · simp [predUpd, hid]

theorem wUpd_fix (i : Nat) (r : WeatherRecord) (h : r.id = i → r.synced = true) :
    wUpd i r = r := by
  by_cases hid : r.id = i
  · cases r
    simp only [wUpd, if_pos hid]
    simp_all
  · simp [wUpd, hid]

theorem uUpd_fix (i : Nat) (r : UserRecord) (h : r.id = i → r.synced = true) :
    uUpd i r = r := by
  by_cases hid : r.id = i
  · cases r
    simp only [uUpd, if_pos hid]
    simp_all
  · simp [uUpd, hid]

theorem decodeItem_fields {e : QueueEntry} {it : QueueItem} (h : decodeItem e = some it) :
    it.id = e.id ∧ it.priority = e.priority ∧ it.createdAt = e.createdAt ∧
      it.retryCount = e.retryCount := by
  unfold decodeItem at h
  cases hd : e.data with
  | none => rw [hd] at h; cases h
  | some d =>
    rw [hd] at h
    injection h with h
    subst h
    exact ⟨rfl, rfl, rfl, rfl⟩

theorem pairwise_decodeQueueRows {l : List QueueEntry} (h : l.Pairwise queueLE) :
    (decodeQueueRows l).Pairwise itemOrd := by
  induction l with
  | nil => simp [decodeQueueRows]
  | cons a t ih =>
    rw [List.pairwise_cons] at h
    obtain ⟨ha, ht⟩ := h
    unfold decodeQueueRows at *
    rw [List.filterMap_cons]
    cases hda : decodeItem a with
    | none => exact ih ht
    | some ia =>
      rw [List.pairwise_cons]
      refine ⟨?_, ih ht⟩
      intro ib hib
      obtain ⟨b, hb, hdb⟩ := List.mem_filterMap.mp hib
      have hfa := decodeItem_fields hda
      have hfb := decodeItem_fields hdb
      have hab := ha b hb
      unfold queueLE at hab
      unfold itemOrd
      rw [hfa.2.1, hfa.2.2.1, hfb.2.1, hfb.2.2.1]
      exact hab

theorem mem_get_sync_queue_retry {s : Store} {limit : Nat} {it : QueueItem}
    (h : it ∈ get_sync_queue s limit) : it.retryCount < 3 := by
  unfold get_sync_queue decodeQueueRows at h
  obtain ⟨e, he, hde⟩ := List.mem_filterMap.mp h
  unfold selectedQueueRows at he
  have he2 := List.take_subset _ _ he
  have he3 := (List.perm_insertionSort queueLE _).mem_iff.mp he2
  have := List.of_mem_filter he3
  rw [(decodeItem_fields hde).2.2.2]
  simpa using this

theorem qUpd_id (i : Nat) (e : QueueEntry) : (qUpd i e).id = e.id := by
  unfold qUpd
  split <;> rfl

theorem qUpdN_id (i n : Nat) (e : QueueEntry) : (qUpdN i n e).id = e.id := by
  unfold qUpdN
  split <;> rfl

theorem failN_queue (s : Store) (i : Nat) :
    ∀ n, (failN s i n).syncQueue = s.syncQueue.map (qUpdN i n) := by
  intro n
  induction n with
  | zero =>
    symm
    apply map_self_of_fix
    intro e _
    unfold qUpdN
    cases e
    split <;> simp
  | succ n ih =>
    show ((mark_sync_failed (failN s i n) i).1).syncQueue = _
    unfold mark_sync_failed
    simp only
    rw [ih, List.map_map]
    apply List.map_congr_left
    intro e _
    show qUpd i (qUpdN i n e) = qUpdN i (n + 1) e
    by_cases h : e.id = i
    · unfold qUpdN qUpd
      rw [if_pos h]
      simp only [h, if_pos rfl, if_pos trivial]
      simp [Nat.add_assoc]
    · unfold qUpdN qUpd
      rw [if_neg h, if_neg h, if_neg h]

theorem eq_of_mem_of_nodup_ids {l : List QueueEntry}
    (h : (l.map (fun e => e.id)).Nodup) {a b : QueueEntry}
    (ha : a ∈ l) (hb : b ∈ l) (hid : a.id = b.id) : a = b := by
  induction l with
  | nil => cases ha
  | cons x t ih =>
    rw [List.map_cons, List.nodup_cons] at h
    obtain ⟨hx, ht⟩ := h
    rcases List.mem_cons.mp ha with rfl | ha2
    · rcases List.mem_cons.mp hb with rfl | hb2
      · rfl
      · exact absurd (hid ▸ List.mem_map_of_mem (fun e => e.id) hb2) hx
    · rcases List.mem_cons.mp hb with rfl | hb2
      · exact absurd (hid ▸ List.mem_map_of_mem (fun e => e.id) ha2) hx
      · exact ih ht ha2 hb2

/-! ### Claims -/

/-- C10: `mark_synced` called with any table name outside
{'predictions', 'weather', 'user_data', 'sync_queue'} reports success
(`True`) while leaving the entire store unchanged: an unrecognized kind
falls through every branch of the if/elif chain of
`OfflineCache.mark_synced` as a silent no-op, not an error. -/
theorem mark_synced_unknown_table_noop (s : Store) (t : String) (i : Nat)
    (h1 : t ≠ "predictions") (h2 : t ≠ "weather") (h3 : t ≠ "user_data")
    (h4 : t ≠ "sync_queue") :
    mark_synced s t i = (s, true) := by
  unfold mark_synced
  rw [if_neg h1, if_neg h2, if_neg h3, if_neg h4]

theorem mark_synced_unknown_table_noop_witness :
    ("notatable" ≠ "predictions" ∧ "notatable" ≠ "weather" ∧ "notatable" ≠ "user_data" ∧
      "notatable" ≠ "sync_queue") ∧
    mark_synced ⟨[⟨1, 7, some "p", 0, false⟩], [], [], [⟨2, "op", "ep", some "q", 0, 1, 0⟩]⟩
      "notatable" 3 =
      (⟨[⟨1, 7, some "p", 0, false⟩], [], [], [⟨2, "op", "ep", some "q", 0, 1, 0⟩]⟩, true) :=
  ⟨⟨by decide, by decide, by decide, by decide⟩,
    mark_synced_unknown_table_noop _ _ 3 (by decide) (by decide) (by decide) (by decide)⟩

/-- C4: `mark_synced` is idempotent for every table string and record
id — a second identical call leaves the store exactly as the first call
left it — and a call whose target is already synced (for `sync_queue`:
already absent) changes nothing. -/
theorem mark_synced_idempotent (s : Store) (t : String) (i : Nat) :
    (mark_synced (mark_synced s t i).1 t i).1 = (mark_synced s t i).1 ∧
    (syncedOrAbsent s t i → (mark_synced s t i).1 = s) := by
  by_cases h1 : t = "predictions"
  · subst h1
    refine ⟨?_, ?_⟩
    · simp only [mark_synced, if_pos rfl]
      exact congrArg (fun l => { s with predictions := l })
        (map_idem_of_fix (predUpd i) s.predictions (predUpd_idem i))
    · intro hno
      simp only [syncedOrAbsent, if_pos rfl, if_true] at hno
      simp only [mark_synced, if_pos rfl]
      rw [map_self_of_fix (predUpd i) s.predictions
        (fun r hr => predUpd_fix i r (fun h => hno r hr h))]
      simp
  · by_cases h2 : t = "weather"
    · subst h2
      refine ⟨?_, ?_⟩
      · simp only [mark_synced, if_neg h1, if_pos rfl]
        exact congrArg (fun l => { s with weather := l })
          (map_idem_of_fix (wUpd i) s.weather (wUpd_idem i))
      · intro hno
        simp only [syncedOrAbsent, if_neg h1, if_pos rfl, if_true] at hno
        simp only [mark_synced, if_neg h1, if_pos rfl]
        rw [map_self_of_fix (wUpd i) s.weather
          (fun r hr => wUpd_fix i r (fun h => hno r hr h))]
        simp
    · by_cases h3 : t = "user_data"
      · subst h3
        refine ⟨?_, ?_⟩
        · simp only [mark_synced, if_neg h1, if_neg h2, if_pos rfl]
          exact congrArg (fun l => { s with userData := l })
            (map_idem_of_fix (uUpd i) s.userData (uUpd_idem i))
        · intro hno
          simp only [syncedOrAbsent, if_neg h1, if_neg h2, if_pos rfl, if_true] at hno
          simp only [mark_synced, if_neg h1, if_neg h2, if_pos rfl]
          rw [map_self_of_fix (uUpd i) s.userData
            (fun r hr => uUpd_fix i r (fun h => hno r hr h))]
          simp
      · by_cases h4 : t = "sync_queue"
        · subst h4
          refine ⟨?_, ?_⟩
          · simp only [mark_synced, if_neg h1, if_neg h2, if_neg h3, if_pos rfl]
            exact congrArg (fun l => { s with syncQueue := l }) (filter_idem _ s.syncQueue)
          · intro hno
            simp only [syncedOrAbsent, if_neg h1, if_neg h2, if_neg h3, if_pos rfl,
              if_true] at hno
            simp only [mark_synced, if_neg h1, if_neg h2, if_neg h3, if_pos rfl]
            rw [List.filter_eq_self.mpr (fun e he => by
              simp only [Bool.not_eq_eq_eq_not, Bool.not_true, beq_eq_false_iff_ne]
              exact hno e he)]
            simp
        · refine ⟨?_, fun _ => ?_⟩
          · simp only [mark_synced, if_neg h1, if_neg h2, if_neg h3, if_neg h4]
          · simp only [mark_synced, if_neg h1, if_neg h2, if_neg h3, if_neg h4]

theorem mark_synced_idempotent_witness :
    syncedOrAbsent ⟨[⟨1, 7, some "p", 0, true⟩], [], [], []⟩ "predictions" 1 ∧
    (mark_synced ⟨[⟨1, 7, some "p", 0, true⟩], [], [], []⟩ "predictions" 1).1 =
      ⟨[⟨1, 7, some "p", 0, true⟩], [], [], []⟩ :=
  ⟨by decide,
    (mark_synced_idempotent ⟨[⟨1, 7, some "p", 0, true⟩], [], [], []⟩ "predictions" 1).2
      (by decide)⟩

/-- C1 counterexample: the janitor DOES delete a record whose `synced`
flag is false — the weather purge of `cleanup_expired_data` is
`DELETE FROM offline_weather WHERE expires_at < ?` with no `synced`
condition, so an unsynced, expired weather record is dropped. -/
theorem cleanup_deletes_unsynced_weather :
    (⟨1, "r", some "d", 0, some 0, false⟩ : WeatherRecord).synced = false ∧
    (⟨1, "r", some "d", 0, some 0, false⟩ : WeatherRecord) ∈
      (⟨[], [⟨1, "r", some "d", 0, some 0, false⟩], [], []⟩ : Store).weather ∧
    (⟨1, "r", some "d", 0, some 0, false⟩ : WeatherRecord) ∉
      ((cleanup_expired_data ⟨[], [⟨1, "r", some "d", 0, some 0, false⟩], [], []⟩ 1).1).weather := by
  refine ⟨rfl, by decide, ?_⟩
  decide

/-- C1 amended: a janitor run (`cleanup_expired_data`) never deletes an
unsynced record from the predictions or user-data tables; weather
records, however, are deleted exactly when expired (`expires_at < now`),
regardless of their `synced` flag, so an unsynced weather record
survives the run if and only if it is not expired. -/
theorem cleanup_janitor_amended (s : Store) (now : Int) :
    (∀ r ∈ s.predictions, r.synced = false →
      r ∈ ((cleanup_expired_data s now).1).predictions) ∧
    (∀ r ∈ s.userData, r.synced = false →
      r ∈ ((cleanup_expired_data s now).1).userData) ∧
    (∀ r ∈ s.weather,
      (r ∈ ((cleanup_expired_data s now).1).weather ↔ sqlLt r.expiresAt now = false)) := by
  refine ⟨?_, ?_, ?_⟩
  · intro r hr hsync
    simp [cleanup_expired_data, List.mem_filter, hr, hsync]
  · intro r hr hsync
    simp [cleanup_expired_data, List.mem_filter, hr, hsync]
  · intro r hr
    simp [cleanup_expired_data, List.mem_filter, hr]

theorem cleanup_janitor_amended_witness :
    (⟨5, 9, some "pay", 0, false⟩ : PredRecord) ∈
      ((cleanup_expired_data ⟨[⟨5, 9, some "pay", 0, false⟩], [], [], []⟩ 9999999999).1).predictions :=
  (cleanup_janitor_amended ⟨[⟨5, 9, some "pay", 0, false⟩], [], [], []⟩ 9999999999).1
    ⟨5, 9, some "pay", 0, false⟩ (by decide) rfl

/-- C9 counterexample: a weather record whose `expires_at` is NULL is
NOT visible to `get_cached_weather` — the SQL filter `expires_at > ?`
is never TRUE on a NULL column — so the sole record for region "r" is
not returned at any read time, contrary to the claim. -/
theorem null_expiry_weather_invisible :
    (⟨1, "r", some "d", 0, none, false⟩ : WeatherRecord) ∈
      (⟨[], [⟨1, "r", some "d", 0, none, false⟩], [], []⟩ : Store).weather ∧
    (⟨1, "r", some "d", 0, none, false⟩ : WeatherRecord).expiresAt = none ∧
    get_cached_weather ⟨[], [⟨1, "r", some "d", 0, none, false⟩], [], []⟩ "r" 5 = none ∧
    get_cached_weather ⟨[], [⟨1, "r", some "d", 0, none, false⟩], [], []⟩ "r" (-100) = none := by
  refine ⟨by decide, rfl, ?_, ?_⟩ <;> decide

/-- C9 amended: a weather record with absent (`NULL`) `expires_at` is
indeed never deleted by the expiry purge of `cleanup_expired_data`
(`expires_at < ?` is never TRUE on NULL), but it is also never visible
to `get_cached_weather`: the read filter `expires_at > ?` excludes it
at every read time, so it can never be returned as the newest entry
for its region. -/
theorem null_expiry_weather_amended (s : Store) (r : WeatherRecord)
    (hr : r ∈ s.weather) (hnull : r.expiresAt = none) :
    (∀ now, r ∈ ((cleanup_expired_data s now).1).weather) ∧
    (∀ region now2, r ∉ weatherCandidates s region now2) := by
  constructor
  · intro now
    simp [cleanup_expired_data, List.mem_filter, hr, sqlLt, hnull]
  · intro region now2 hmem
    have := (List.mem_filter.mp hmem).2
    rw [hnull] at this
    simp [sqlGt] at this

theorem null_expiry_weather_amended_witness :
    (⟨1, "r", some "d", 0, none, false⟩ : WeatherRecord) ∈
      ((cleanup_expired_data ⟨[], [⟨1, "r", some "d", 0, none, false⟩], [], []⟩ 12345).1).weather ∧
    (⟨1, "r", some "d", 0, none, false⟩ : WeatherRecord) ∉
      weatherCandidates ⟨[], [⟨1, "r", some "d", 0, none, false⟩], [], []⟩ "r" 0 :=
  ⟨(null_expiry_weather_amended ⟨[], [⟨1, "r", some "d", 0, none, false⟩], [], []⟩
      ⟨1, "r", some "d", 0, none, false⟩ (by decide) rfl).1 12345,
    (null_expiry_weather_amended ⟨[], [⟨1, "r", some "d", 0, none, false⟩], [], []⟩
      ⟨1, "r", some "d", 0, none, false⟩ (by decide) rfl).2 "r" 0⟩

/-- C8: when the batch of rows a listing call selects contains a record
whose payload is not decodable, each of `get_cached_predictions`,
`get_cached_user_data` and `get_sync_queue` skips that record and
returns the decoded form of every remaining row of the batch, in
order, instead of failing the whole call. -/
theorem listing_skips_malformed :
    (∀ (s : Store) (uid limit : Nat) (pre post : List PredRecord) (r : PredRecord),
      selectedPredRows s uid limit = pre ++ r :: post → r.data = none →
      get_cached_predictions s uid limit = decodePredRows pre ++ decodePredRows post) ∧
    (∀ (s : Store) (uid : Nat) (dtype : String) (pre post : List UserRecord) (r : UserRecord),
      selectedUserRows s uid dtype = pre ++ r :: post → r.data = none →
      get_cached_user_data s uid dtype = decodeUserRows pre ++ decodeUserRows post) ∧
    (∀ (s : Store) (limit : Nat) (pre post : List QueueEntry) (e : QueueEntry),
      selectedQueueRows s limit = pre ++ e :: post → e.data = none →
      get_sync_queue s limit = decodeQueueRows pre ++ decodeQueueRows post) := by
  refine ⟨?_, ?_, ?_⟩
  · intro s uid limit pre post r hsel hnone
    unfold get_cached_predictions
    rw [hsel]
    unfold decodePredRows
    rw [List.filterMap_append, List.filterMap_cons, hnone]
  · intro s uid dtype pre post r hsel hnone
    unfold get_cached_user_data
    rw [hsel]
    unfold decodeUserRows
    rw [List.filterMap_append, List.filterMap_cons, hnone]
  · intro s limit pre post e hsel hnone
    unfold get_sync_queue
    rw [hsel]
    unfold decodeQueueRows
    rw [List.filterMap_append, List.filterMap_cons]
    unfold decodeItem
    rw [hnone]

theorem listing_skips_malformed_witness :
    get_cached_predictions mixedStore 1 10 = decodePredRows [g1P] ++ decodePredRows [g2P] ∧
    get_cached_user_data mixedStore 1 "profile" =
      decodeUserRows [g1U] ++ decodeUserRows [g2U] ∧
    get_sync_queue mixedStore 50 = decodeQueueRows [g1Q] ++ decodeQueueRows [g2Q] :=
  ⟨listing_skips_malformed.1 mixedStore 1 10 [g1P] [g2P] badP (by decide) rfl,
    listing_skips_malformed.2.1 mixedStore 1 "profile" [g1U] [g2U] badU (by decide) rfl,
    listing_skips_malformed.2.2 mixedStore 50 [g1Q] [g2Q] badQ (by decide) rfl⟩

/-- C3: for every queue state and limit, the sequence `get_sync_queue`
returns is ordered by priority descending, then `created_at` ascending
within equal priority, and contains only items with `retry_count < 3`;
on the spec scenario of three eligible entries with priorities
[1, 2, 1] it returns the priority-2 entry first, then the two
priority-1 entries oldest first. -/
theorem get_sync_queue_ordered (s : Store) (limit : Nat) :
    (get_sync_queue s limit).Pairwise itemOrd ∧
    (∀ it ∈ get_sync_queue s limit, it.retryCount < 3) ∧
    get_sync_queue scenStore 50 =
      [⟨2, "create-prediction", "/api/predictions", "p2", 2, 0, 20⟩,
       ⟨1, "create-prediction", "/api/predictions", "p1", 1, 0, 10⟩,
       ⟨3, "create-prediction", "/api/predictions", "p3", 1, 0, 30⟩] := by
  refine ⟨?_, fun it h => mem_get_sync_queue_retry h, by decide⟩
  unfold get_sync_queue selectedQueueRows
  apply pairwise_decodeQueueRows
  exact (List.sorted_insertionSort queueLE _).sublist (List.take_sublist _ _)

theorem get_sync_queue_ordered_witness :
    (get_sync_queue scenStore 50).Pairwise itemOrd ∧
    (⟨2, "create-prediction", "/api/predictions", "p2", 2, 0, 20⟩ : QueueItem).retryCount < 3 :=
  ⟨(get_sync_queue_ordered scenStore 50).1,
    (get_sync_queue_ordered scenStore 50).2.1
      ⟨2, "create-prediction", "/api/predictions", "p2", 2, 0, 20⟩ (by decide)⟩

/-- C2 counterexample: an entry that has exhausted its retries is
deleted by `clear_all_data`, an operation other than confirmed success
(`mark_synced` on 'sync_queue'), so "no operation other than confirmed
success deletes it" is false as stated. -/
theorem exhausted_entry_lost_on_clear :
    (⟨7, "op", "/ep", some "q", 50, 2, 3⟩ : QueueEntry) ∈ exhaustedStore.syncQueue ∧
    (clear_all_data exhaustedStore).1.syncQueue = [] :=
  ⟨by decide, rfl⟩

/-- C2 amended: in a queue with distinct ids, after 3 consecutive
`mark_sync_failed` calls targeting entry `e`, the updated entry (retry
count raised by 3) is still present in the `sync_queue` table but no
item of `get_sync_queue` carries its id at any limit; it survives
every further `mark_sync_failed`, `add_to_sync_queue`,
`cleanup_expired_data`, and every `mark_synced` other than
`mark_synced` on 'sync_queue' with its id — which, like the explicit
full wipe `clear_all_data`, does delete it. -/
theorem retry_bound_amended (s : Store) (e : QueueEntry)
    (he : e ∈ s.syncQueue) (hnd : (s.syncQueue.map (fun x => x.id)).Nodup) :
    ({ e with retryCount := e.retryCount + 3 }) ∈ (failN s e.id 3).syncQueue ∧
    (∀ limit, ∀ it ∈ get_sync_queue (failN s e.id 3) limit, it.id ≠ e.id) ∧
    (∀ qid, ∃ x ∈ ((mark_sync_failed (failN s e.id 3) qid).1).syncQueue, x.id = e.id) ∧
    (∀ op ep d pri now,
      ∃ x ∈ ((add_to_sync_queue (failN s e.id 3) op ep d pri now).1).syncQueue, x.id = e.id) ∧
    (∀ now, ∃ x ∈ ((cleanup_expired_data (failN s e.id 3) now).1).syncQueue, x.id = e.id) ∧
    (∀ t i, ¬(t = "sync_queue" ∧ i = e.id) →
      ∃ x ∈ ((mark_synced (failN s e.id 3) t i).1).syncQueue, x.id = e.id) ∧
    (∀ x ∈ ((mark_synced (failN s e.id 3) "sync_queue" e.id).1).syncQueue, x.id ≠ e.id) := by
  have hq3 : (failN s e.id 3).syncQueue = s.syncQueue.map (qUpdN e.id 3) :=
    failN_queue s e.id 3
  have he3 : ({ e with retryCount := e.retryCount + 3 }) ∈ (failN s e.id 3).syncQueue := by
    rw [hq3]
    have : qUpdN e.id 3 e = { e with retryCount := e.retryCount + 3 } := by
      unfold qUpdN
      rw [if_pos rfl]
    exact this ▸ List.mem_map_of_mem (qUpdN e.id 3) he
  refine ⟨he3, ?_, ?_, ?_, ?_, ?_, ?_⟩
  · intro limit it hit hid
    unfold get_sync_queue decodeQueueRows at hit
    obtain ⟨x, hx, hdx⟩ := List.mem_filterMap.mp hit
    unfold selectedQueueRows at hx
    have hx2 := List.take_subset _ _ hx
    have hx3 := (List.perm_insertionSort queueLE _).mem_iff.mp hx2
    have hretr := List.of_mem_filter hx3
    have hxq : x ∈ (failN s e.id 3).syncQueue := List.mem_of_mem_filter hx3
    rw [hq3] at hxq
    obtain ⟨y, hy, hyx⟩ := List.mem_map.mp hxq
    have hxid : x.id = e.id := ((decodeItem_fields hdx).1).symm.trans hid
    have hyid : y.id = e.id := by rw [← hyx] at hxid; rw [← hxid, qUpdN_id]
    have hye : y = e := eq_of_mem_of_nodup_ids hnd hy he hyid
    subst hye
    rw [← hyx] at hretr
    unfold qUpdN at hretr
    rw [if_pos hyid] at hretr
    simp at hretr
  · intro qid
    refine ⟨qUpd qid { e with retryCount := e.retryCount + 3 }, ?_, ?_⟩
    · exact List.mem_map_of_mem (qUpd qid) he3
    · rw [qUpd_id]
  · intro op ep d pri now
    exact ⟨{ e with retryCount := e.retryCount + 3 },
      List.mem_append_left _ he3, rfl⟩
  · intro now
    exact ⟨{ e with retryCount := e.retryCount + 3 }, he3, rfl⟩
  · intro t i hti
    by_cases h1 : t = "predictions"
    · subst h1
      simp only [mark_synced, if_pos rfl]
      exact ⟨{ e with retryCount := e.retryCount + 3 }, he3, rfl⟩
    · by_cases h2 : t = "weather"
      · subst h2
        simp only [mark_synced, if_neg h1, if_pos rfl]
        exact ⟨{ e with retryCount := e.retryCount + 3 }, he3, rfl⟩
      · by_cases h3 : t = "user_data"
        · subst h3
          simp only [mark_synced, if_neg h1, if_neg h2, if_pos rfl]
          exact ⟨{ e with retryCount := e.retryCount + 3 }, he3, rfl⟩
        · by_cases h4 : t = "sync_queue"
          · subst h4
            have hine : i ≠ e.id := fun h => hti ⟨rfl, h⟩
            simp only [mark_synced, if_neg h1, if_neg h2, if_neg h3, if_pos rfl]
            refine ⟨{ e with retryCount := e.retryCount + 3 }, ?_, rfl⟩
            apply List.mem_filter.mpr
            refine ⟨he3, ?_⟩
            simp only [Bool.not_eq_eq_eq_not, Bool.not_true, beq_eq_false_iff_ne]
            exact fun h => hine h.symm
          · simp only [mark_synced, if_neg h1, if_neg h2, if_neg h3, if_neg h4]
            exact ⟨{ e with retryCount := e.retryCount + 3 }, he3, rfl⟩
  · intro x hx
    simp only [mark_synced, if_pos rfl, reduceIte] at hx
    have := (List.mem_filter.mp hx).2
    simp only [Bool.not_eq_eq_eq_not, Bool.not_true, beq_eq_false_iff_ne] at this
    exact this

theorem retry_bound_amended_witness :
    (⟨7, "op", "/ep", some "q", 50, 2, 3⟩ : QueueEntry) ∈ (failN oneQStore 7 3).syncQueue :=
  (retry_bound_amended oneQStore ⟨7, "op", "/ep", some "q", 50, 2, 0⟩
    (by decide) (by decide)).1

theorem lookupW_insertW (c : WCache) (k : List Char) (v : Snapshot × Int) :
    lookupW (insertW c k v) k = some v := by
  unfold lookupW insertW
  rw [List.find?_cons_of_pos _ (by simp)]

theorem get_weather_data_of_miss {c : WCache} {region : String} {now : Int} {ak : Bool}
    {f : Option ApiRaw} {j : Jitter} (hc : lookupW c (normChars region) = none) :
    get_weather_data c region now ak f j =
      fetchOrFallback c (normChars region) region now ak f j := by
  unfold get_weather_data
  rw [hc]

theorem get_weather_data_of_hit {c : WCache} {region : String} {now : Int} {ak : Bool}
    {f : Option ApiRaw} {j : Jitter} {sn : Snapshot} {t : Int}
    (hc : lookupW c (normChars region) = some (sn, t)) :
    get_weather_data c region now ak f j =
      if now - t < weatherCacheDuration then (sn, c, false)
      else fetchOrFallback c (normChars region) region now ak f j := by
  unfold get_weather_data
  rw [hc]

theorem fetchOrFallback_live (c : WCache) (key : List Char) (region : String) (now : Int)
    (raw : ApiRaw) (j : Jitter) :
    fetchOrFallback c key region now true (some raw) j =
      (mkLiveSnapshot raw region now,
        insertW c key (mkLiveSnapshot raw region now, now), true) := rfl

theorem fetchOrFallback_fail (c : WCache) (key : List Char) (region : String) (now : Int)
    (j : Jitter) :
    fetchOrFallback c key region now true none j =
      (get_regional_fallback_weather region j now,
        insertW c key (get_regional_fallback_weather region j now,
          now - weatherCacheDuration + 300), true) := rfl

theorem fetchOrFallback_nokey (c : WCache) (key : List Char) (region : String) (now : Int)
    (f : Option ApiRaw) (j : Jitter) :
    fetchOrFallback c key region now false f j =
      (get_regional_fallback_weather region j now,
        insertW c key (get_regional_fallback_weather region j now,
          now - weatherCacheDuration + 300), false) := rfl

/-- C5: freshness of the app.py weather cache.
(1) If the cache key is stale or absent at time `T` and the live fetch
succeeds, the live snapshot is cached with cache time `T` and a remote
call was made.  (2) Any `get_weather_data` call at time `T'` finding an
entry cached at time `T` with `T' - T < 3600` returns that snapshot
unchanged, with no remote call and no cache mutation — in particular
every read within one hour of a live fetch.  (3) When the fetch fails
(or no API key is configured) the fallback snapshot is cached with
cache time `T - 3600 + 300 = T - 3300`.  (4) Hence for an entry the
fallback path stored at time `T`, any call at `T'` with `T' - T ≥ 300`
(five minutes) skips the cache and re-attempts the live fetch. -/
theorem weather_cache_freshness :
    (∀ (c : WCache) (region : String) (raw : ApiRaw) (T : Int) (j : Jitter),
      (∀ sn t, lookupW c (normChars region) = some (sn, t) → 3600 ≤ T - t) →
      lookupW ((get_weather_data c region T true (some raw) j).2.1) (normChars region) =
          some (mkLiveSnapshot raw region T, T) ∧
        (get_weather_data c region T true (some raw) j).2.2 = true) ∧
    (∀ (c : WCache) (region : String) (snap : Snapshot) (T Tp : Int) (ak : Bool)
        (f : Option ApiRaw) (j : Jitter),
      lookupW c (normChars region) = some (snap, T) → Tp - T < 3600 →
      get_weather_data c region Tp ak f j = (snap, c, false)) ∧
    (∀ (c : WCache) (region : String) (T : Int) (ak : Bool) (f : Option ApiRaw) (j : Jitter),
      (ak = false ∨ f = none) →
      (∀ sn t, lookupW c (normChars region) = some (sn, t) → 3600 ≤ T - t) →
      lookupW ((get_weather_data c region T ak f j).2.1) (normChars region) =
        some (get_regional_fallback_weather region j T, T - 3300)) ∧
    (∀ (c : WCache) (region : String) (snap : Snapshot) (T Tp : Int)
        (f : Option ApiRaw) (j : Jitter),
      lookupW c (normChars region) = some (snap, T - 3300) → 300 ≤ Tp - T →
      (get_weather_data c region Tp true f j).2.2 = true) := by
  refine ⟨?_, ?_, ?_, ?_⟩
  · intro c region raw T j hstale
    have hfb : (fetchOrFallback c (normChars region) region T true (some raw) j).2 =
        (insertW c (normChars region) (mkLiveSnapshot raw region T, T), true) := by
      rw [fetchOrFallback_live]
    cases hc : lookupW c (normChars region) with
    | none =>
      rw [get_weather_data_of_miss hc, fetchOrFallback_live]
      exact ⟨lookupW_insertW _ _ _, rfl⟩
    | some st =>
      obtain ⟨sn, t⟩ := st
      have := hstale sn t hc
      rw [get_weather_data_of_hit hc,
        if_neg (by unfold weatherCacheDuration; omega), fetchOrFallback_live]
      exact ⟨lookupW_insertW _ _ _, rfl⟩
  · intro c region snap T Tp ak f j hlook hT
    rw [get_weather_data_of_hit hlook,
      if_pos (by unfold weatherCacheDuration; omega)]
  · intro c region T ak f j hak hstale
    have hts : T - weatherCacheDuration + 300 = T - 3300 := by
      unfold weatherCacheDuration; omega
    have hfb : (fetchOrFallback c (normChars region) region T ak f j).2.1 =
        insertW c (normChars region)
          (get_regional_fallback_weather region j T, T - 3300) := by
      rcases hak with rfl | rfl
      · rw [fetchOrFallback_nokey, hts]
      · cases ak
        · rw [fetchOrFallback_nokey, hts]
        · rw [fetchOrFallback_fail, hts]
    cases hc : lookupW c (normChars region) with
    | none =>
      rw [get_weather_data_of_miss hc, hfb]
      exact lookupW_insertW _ _ _
    | some st =>
      obtain ⟨sn, t⟩ := st
      have := hstale sn t hc
      rw [get_weather_data_of_hit hc, if_neg (by unfold weatherCacheDuration; omega), hfb]
      exact lookupW_insertW _ _ _
  · intro c region snap T Tp f j hlook hT
    rw [get_weather_data_of_hit hlook, if_neg (by unfold weatherCacheDuration; omega)]
    cases f
    · rw [fetchOrFallback_fail]
    · rw [fetchOrFallback_live]

theorem weather_cache_freshness_witness :
    (lookupW ((get_weather_data [] "x" 0 true (some exRaw) jEx).2.1) (normChars "x") =
        some (mkLiveSnapshot exRaw "x" 0, 0) ∧
      (get_weather_data [] "x" 0 true (some exRaw) jEx).2.2 = true) ∧
    get_weather_data exCacheFresh "x" 100 true none jEx = (exSnap, exCacheFresh, false) ∧
    lookupW ((get_weather_data [] "x" 0 true none jEx).2.1) (normChars "x") =
      some (get_regional_fallback_weather "x" jEx 0, 0 - 3300) ∧
    (get_weather_data exCacheFresh "x" 3600 true none jEx).2.2 = true :=
  ⟨weather_cache_freshness.1 [] "x" exRaw 0 jEx (fun sn t h => by cases h),
    weather_cache_freshness.2.1 exCacheFresh "x" exSnap 0 100 true none jEx rfl (by decide),
    weather_cache_freshness.2.2.1 [] "x" 0 true none jEx (Or.inr rfl)
      (fun sn t h => by cases h),
    weather_cache_freshness.2.2.2 exCacheFresh "x" exSnap 3300 3600 none jEx rfl (by decide)⟩

theorem round1_bounds (m n : ℤ) (x : ℚ) (h1 : (m : ℚ)/10 ≤ x) (h2 : x ≤ (n : ℚ)/10) :
    (m : ℚ)/10 ≤ round1 x ∧ round1 x ≤ (n : ℚ)/10 := by
  have hm : m ≤ round (10 * x) := by
    rw [round_eq, Int.le_floor]
    push_cast
    linarith
  have hn : round (10 * x) ≤ n := by
    rw [round_eq]
    have h : (⌊10 * x + 1/2⌋ : ℤ) < n + 1 := by
      rw [Int.floor_lt]
      push_cast
      linarith
    omega
  constructor
  · unfold round1
    have h : (m : ℚ) ≤ ((round (10 * x) : ℤ) : ℚ) := by exact_mod_cast hm
    linarith
  · unfold round1
    have h : ((round (10 * x) : ℤ) : ℚ) ≤ (n : ℚ) := by exact_mod_cast hn
    linarith

theorem pattern_facts : ∀ kp ∈ regionalPatterns,
    (∃ m : ℤ, kp.2.temp = (m : ℚ)/10) ∧ 40 ≤ kp.2.humidity ∧ kp.2.humidity ≤ 80 ∧
      (0 : ℚ) ≤ kp.2.rainfall := by
  intro kp hkp
  fin_cases hkp
  · exact ⟨⟨310, by norm_num⟩, by decide, by decide, by norm_num⟩
  · exact ⟨⟨325, by norm_num⟩, by decide, by decide, by norm_num⟩
  · exact ⟨⟨300, by norm_num⟩, by decide, by decide, by norm_num⟩
  · exact ⟨⟨295, by norm_num⟩, by decide, by decide, by norm_num⟩
  · exact ⟨⟨285, by norm_num⟩, by decide, by decide, by norm_num⟩
  · exact ⟨⟨340, by norm_num⟩, by decide, by decide, by norm_num⟩
  · exact ⟨⟨265, by norm_num⟩, by decide, by decide, by norm_num⟩
  · exact ⟨⟨305, by norm_num⟩, by decide, by decide, by norm_num⟩
  · exact ⟨⟨350, by norm_num⟩, by decide, by decide, by norm_num⟩
  · exact ⟨⟨315, by norm_num⟩, by decide, by decide, by norm_num⟩
  · exact ⟨⟨330, by norm_num⟩, by decide, by decide, by norm_num⟩

/-- C6: for every region matching a known baseline profile `p` and
every draw of the random jitter within its documented range, the
fallback snapshot has temperature in [p.temp − 2, p.temp + 2] (after
Python's `round(·, 1)`), humidity in [max(30, p.humidity − 5),
min(90, p.humidity + 5)], rainfall in [max(0, p.rainfall − 20),
p.rainfall + 20], and source tag "fallback". -/
theorem fallback_jitter_bounds (region : String) (j : Jitter) (now : Int)
    (k : String) (p : Pattern) (hfind : findPattern region = some (k, p))
    (ht1 : -2 ≤ j.tempVar) (ht2 : j.tempVar ≤ 2)
    (hh1 : -5 ≤ j.humVar) (hh2 : j.humVar ≤ 5)
    (hr1 : -20 ≤ j.rainVar) (hr2 : j.rainVar ≤ 20) :
    p.temp - 2 ≤ (get_regional_fallback_weather region j now).temperature ∧
    (get_regional_fallback_weather region j now).temperature ≤ p.temp + 2 ∧
    max 30 (p.humidity - 5) ≤ (get_regional_fallback_weather region j now).humidity ∧
    (get_regional_fallback_weather region j now).humidity ≤ min 90 (p.humidity + 5) ∧
    max 0 (p.rainfall - 20) ≤ (get_regional_fallback_weather region j now).rainfall ∧
    (get_regional_fallback_weather region j now).rainfall ≤ p.rainfall + 20 ∧
    (get_regional_fallback_weather region j now).source = "fallback" := by
  have hsel : selectPattern region = p := by
    unfold selectPattern
    rw [hfind]
  have hfacts : (∃ m : ℤ, p.temp = (m : ℚ)/10) ∧ 40 ≤ p.humidity ∧ p.humidity ≤ 80 ∧
      (0 : ℚ) ≤ p.rainfall :=
    pattern_facts (k, p) (List.mem_of_find?_eq_some hfind)
  obtain ⟨⟨m, hm⟩, hhum1, hhum2, hrain⟩ := hfacts
  have hfields : (get_regional_fallback_weather region j now).temperature =
        round1 (p.temp + j.tempVar) ∧
      (get_regional_fallback_weather region j now).humidity =
        max 30 (min 90 (p.humidity + j.humVar)) ∧
      (get_regional_fallback_weather region j now).rainfall =
        max 0 (p.rainfall + j.rainVar) ∧
      (get_regional_fallback_weather region j now).source = "fallback" := by
    unfold get_regional_fallback_weather
    rw [hsel]
    exact ⟨rfl, rfl, rfl, rfl⟩
  obtain ⟨hft, hfh, hfr, hfs⟩ := hfields
  have htemp : p.temp - 2 ≤ round1 (p.temp + j.tempVar) ∧
      round1 (p.temp + j.tempVar) ≤ p.temp + 2 := by
    have hb := round1_bounds (m - 20) (m + 20) (p.temp + j.tempVar)
      (by push_cast; rw [hm] at *; linarith) (by push_cast; rw [hm] at *; linarith)
    constructor
    · calc p.temp - 2 = ((m - 20 : ℤ) : ℚ)/10 := by rw [hm]; push_cast; ring
        _ ≤ _ := hb.1
    · calc round1 (p.temp + j.tempVar) ≤ ((m + 20 : ℤ) : ℚ)/10 := hb.2
        _ = p.temp + 2 := by rw [hm]; push_cast; ring
  refine ⟨hft ▸ htemp.1, hft ▸ htemp.2, ?_, ?_, ?_, ?_, hfs⟩
  · rw [hfh]
    omega
  · rw [hfh]
    omega
  · rw [hfr]
    exact max_le_max (le_refl 0) (by linarith)
  · rw [hfr]
    exact max_le (by linarith) (by linarith)

theorem fallback_jitter_bounds_witness :
    (31.0 : ℚ) - 2 ≤ (get_regional_fallback_weather "punjab" jEx 0).temperature ∧
    (get_regional_fallback_weather "punjab" jEx 0).temperature ≤ (31.0 : ℚ) + 2 ∧
    max 30 ((60 : ℤ) - 5) ≤ (get_regional_fallback_weather "punjab" jEx 0).humidity ∧
    (get_regional_fallback_weather "punjab" jEx 0).humidity ≤ min 90 ((60 : ℤ) + 5) ∧
    max 0 ((180 : ℚ) - 20) ≤ (get_regional_fallback_weather "punjab" jEx 0).rainfall ∧
    (get_regional_fallback_weather "punjab" jEx 0).rainfall ≤ (180 : ℚ) + 20 ∧
    (get_regional_fallback_weather "punjab" jEx 0).source = "fallback" :=
  fallback_jitter_bounds "punjab" jEx 0 "punjab" ⟨31.0, 60, 180, "clear sky"⟩ rfl
    (by decide) (by decide) (by decide) (by decide) (by decide) (by decide)

theorem find?_first {α : Type} (p : α → Bool) (l : List α) (a : α)
    (h : l.find? p = some a) :
    p a = true ∧ ∃ pre post, l = pre ++ a :: post ∧ ∀ x ∈ pre, p x = false := by
  induction l with
  | nil => cases h
  | cons x t ih =>
    cases hx : p x with
    | true =>
      rw [List.find?_cons_of_pos _ hx] at h
      injection h with h
      subst h
      exact ⟨hx, [], t, rfl, fun x hx => absurd hx (List.not_mem_nil x)⟩
    | false =>
      rw [List.find?_cons_of_neg _ (by simp [hx])] at h
      obtain ⟨hpa, pre, post, heq, hpre⟩ := ih h
      refine ⟨hpa, x :: pre, post, by rw [heq]; rfl, ?_⟩
      intro y hy
      rcases List.mem_cons.mp hy with rfl | hy2
      · exact hx
      · exact hpre y hy2

theorem pattern_ne_default : ∀ kp ∈ regionalPatterns, kp.2 ≠ defaultPattern := by
  intro kp hkp
  fin_cases hkp <;> intro h
  · exact absurd (congrArg Pattern.humidity h) (by decide)
  · exact absurd (congrArg Pattern.humidity h) (by decide)
  · exact absurd (congrArg Pattern.humidity h) (by decide)
  · exact absurd (congrArg Pattern.humidity h) (by decide)
  · exact absurd (congrArg Pattern.humidity h) (by decide)
  · exact absurd (congrArg Pattern.desc h) (by decide)
  · exact absurd (congrArg Pattern.humidity h) (by decide)
  · exact absurd (congrArg Pattern.humidity h) (by decide)
  · exact absurd (congrArg Pattern.humidity h) (by decide)
  · exact absurd (congrArg Pattern.humidity h) (by decide)
  · exact absurd (congrArg Pattern.humidity h) (by decide)

/-- C7: the fallback profile is chosen by substring containment of a
table key in the case-folded region name, first match in table order
winning: whenever `findPattern` settles on `(k, p)`, the key `k`
matches and every earlier table entry does not; the global default
profile is used exactly when no key matches; and "Punjab, India"
selects the "punjab" baseline profile, not the default. -/
theorem region_match_rule :
    (∀ (region k : String) (p : Pattern), findPattern region = some (k, p) →
      subMatch k.data (normChars region) = true ∧
      ∃ pre post, regionalPatterns = pre ++ (k, p) :: post ∧
        ∀ kp ∈ pre, subMatch kp.1.data (normChars region) = false) ∧
    (∀ region : String, selectPattern region = defaultPattern ↔
      ∀ kp ∈ regionalPatterns, subMatch kp.1.data (normChars region) = false) ∧
    (selectPattern "Punjab, India" = ⟨31.0, 60, 180, "clear sky"⟩ ∧
      (⟨31.0, 60, 180, "clear sky"⟩ : Pattern) ≠ defaultPattern) := by
  refine ⟨?_, ?_, rfl, fun h => absurd (congrArg Pattern.humidity h) (by decide)⟩
  · intro region k p h
    unfold findPattern at h
    exact find?_first _ _ _ h
  · intro region
    constructor
    · intro hdef kp hkp
      by_contra hmatch
      rw [Bool.not_eq_false] at hmatch
      cases hfind : findPattern region with
      | none =>
        unfold findPattern at hfind
        have := List.find?_eq_none.mp hfind kp hkp
        exact this hmatch
      | some kq =>
        have hsel : selectPattern region = kq.2 := by
          unfold selectPattern
          rw [hfind]
        have hmem : kq ∈ regionalPatterns := List.mem_of_find?_eq_some hfind
        exact pattern_ne_default kq hmem (hsel ▸ hdef)
    · intro hnone
      have hfind : findPattern region = none := by
        unfold findPattern
        apply List.find?_eq_none.mpr
        intro kp hkp
        simp [hnone kp hkp]
      unfold selectPattern
      rw [hfind]

theorem region_match_rule_witness :
    subMatch ("punjab" : String).data (normChars "Punjab, India") = true ∧
    ∃ pre post, regionalPatterns = pre ++ ("punjab", ⟨31.0, 60, 180, "clear sky"⟩) :: post ∧
      ∀ kp ∈ pre, subMatch kp.1.data (normChars "Punjab, India") = false :=
  region_match_rule.1 "Punjab, India" "punjab" ⟨31.0, 60, 180, "clear sky"⟩ rfl

end CropYield
